import Mathlib

/-!
Shallow embedding of two compartmental epidemic model scripts:
`sir-basic-model.py` and `seirds-epidemiology-model.py`.

Python numbers are modelled as exact rationals `ℚ`.  Python's
`ZeroDivisionError` (raised by `x / N` when `N = 0`) is modelled by
returning `none`.  The external ODE solver `scipy.integrate.odeint` is not
part of the repository; the model functions are therefore parametrized over
a solver, and the solver's documented behaviour is captured by explicit
contract predicates.
-/

namespace EpiModels

/-- SIR compartment state `(S, I, R)`. -/
abbrev State3 := ℚ × ℚ × ℚ

/-- SEIRDS compartment state `(S, E, I, R, D)`. -/
abbrev State5 := ℚ × ℚ × ℚ × ℚ × ℚ

/-- Embedding of `SIR_derivatives(y, t, N, beta, gamma)` from
`sir-basic-model.py`.  The body unpacks `S, I, R = y` and computes the three
derivative expressions; every call divides by `N`, so `N = 0` raises
`ZeroDivisionError` in Python, modelled as `none`. -/
def SIR_derivatives (y : State3) (t N beta gamma : ℚ) : Option State3 :=
  match y with
  | (S, I, _R) =>
    if N = 0 then none
    else
      some (-beta * S * I / N,
            beta * S * I / N - gamma * I,
            gamma * I)

/-- Embedding of `SEIRDS_derivatives(y, t, N, beta, gamma, delta, sigma)`
from `seirds-epidemiology-model.py`.  The body unpacks `S, E, I, R, D = y`;
`N = 0` raises `ZeroDivisionError` in Python, modelled as `none`. -/
def SEIRDS_derivatives (y : State5) (t N beta gamma delta sigma : ℚ) :
    Option State5 :=
  match y with
  | (S, E, I, _R, _D) =>
    if N = 0 then none
    else
      some (-beta * S * I / N,
            beta * S * I / N - sigma * E,
            sigma * E - (gamma + delta) * I,
            gamma * I,
            delta * I)

/-- Type of an ODE solver for the 3-compartment system: it receives the
right-hand-side function, the initial state and the time grid, and returns
the result table (one state per row). -/
abbrev Solver3 := (State3 → ℚ → Option State3) → State3 → List ℚ → List State3

/-- Type of an ODE solver for the 5-compartment system. -/
abbrev Solver5 := (State5 → ℚ → Option State5) → State5 → List ℚ → List State5

/-- Embedding of `SIR_model(N, S0, I0, R0, beta, gamma, ts)` from
`sir-basic-model.py`: it builds `y0 = S0, I0, R0` and immediately hands the
derivative function, `y0` and `ts` to the solver (`odeint` in the source),
performing no validation and no derivation of `S0`. -/
def SIR_model (solver : Solver3) (N S0 I0 R0 beta gamma : ℚ)
    (ts : List ℚ) : List State3 :=
  solver (fun y t => SIR_derivatives y t N beta gamma) (S0, I0, R0) ts

/-- Embedding of `SEIRDS_model(N, I0, E0, R0, D0, beta, gamma, delta, sigma, ts)`
from `seirds-epidemiology-model.py`: it derives
`S0 = N - I0 - E0 - R0 - D0`, builds `y0 = S0, E0, I0, R0, D0` and
immediately hands the derivative function, `y0` and `ts` to the solver,
performing no validation. -/
def SEIRDS_model (solver : Solver5) (N I0 E0 R0 D0 beta gamma delta sigma : ℚ)
    (ts : List ℚ) : List State5 :=
  let S0 := N - I0 - E0 - R0 - D0
  solver (fun y t => SEIRDS_derivatives y t N beta gamma delta sigma)
    (S0, E0, I0, R0, D0) ts

/-- Modelled from the spec: the shape contract of the external ODE solver
(`scipy.integrate.odeint`, not part of `src/`): the result table has one row
per time-grid point, and its first row is the initial condition exactly
(the boundary condition, not computed by the solver). -/
def OdeintShape3 (solver : Solver3) : Prop :=
  ∀ f y0 ts, (solver f y0 ts).length = ts.length ∧
    (ts ≠ [] → (solver f y0 ts).head? = some y0)

/-- Modelled from the spec: the shape contract of the external ODE solver
for the 5-compartment system. -/
def OdeintShape5 (solver : Solver5) : Prop :=
  ∀ f y0 ts, (solver f y0 ts).length = ts.length ∧
    (ts ≠ [] → (solver f y0 ts).head? = some y0)

/-- Modelled from the spec: an ODE solver started at an equilibrium point
(the derivative field vanishes at the initial state for all times) returns
the constant trajectory — the result table repeats the initial state at
every time-grid point. -/
def EquilibriumConstancy3 (solver : Solver3) : Prop :=
  ∀ f y0 ts, (∀ t, f y0 t = some ((0 : ℚ), (0 : ℚ), (0 : ℚ))) →
    solver f y0 ts = ts.map (fun _ => y0)

/-- Modelled from the spec: equilibrium constancy for the 5-compartment
solver. -/
def EquilibriumConstancy5 (solver : Solver5) : Prop :=
  ∀ f y0 ts,
    (∀ t, f y0 t = some ((0 : ℚ), (0 : ℚ), (0 : ℚ), (0 : ℚ), (0 : ℚ))) →
    solver f y0 ts = ts.map (fun _ => y0)

/-- A concrete solver used to instantiate the solver contracts in witnesses:
it ignores the derivative field and repeats the initial state. -/
def constSolver3 : Solver3 := fun _f y0 ts => ts.map (fun _ => y0)

/-- A concrete 5-compartment solver repeating the initial state. -/
def constSolver5 : Solver5 := fun _f y0 ts => ts.map (fun _ => y0)

lemma constSolver3_shape : OdeintShape3 constSolver3 := by
  intro f y0 ts
  refine ⟨by simp [constSolver3], ?_⟩
  intro hts
  cases ts with
  | nil => exact absurd rfl hts
  | cons a l => simp [constSolver3]

lemma constSolver5_shape : OdeintShape5 constSolver5 := by
  intro f y0 ts
  refine ⟨by simp [constSolver5], ?_⟩
  intro hts
  cases ts with
  | nil => exact absurd rfl hts
  | cons a l => simp [constSolver5]

lemma constSolver3_equilibrium : EquilibriumConstancy3 constSolver3 := by
  intro f y0 ts _
  rfl

lemma constSolver5_equilibrium : EquilibriumConstancy5 constSolver5 := by
  intro f y0 ts _
  rfl

lemma SIR_derivatives_eq (S I R t N beta gamma : ℚ) (hN : N ≠ 0) :
    SIR_derivatives (S, I, R) t N beta gamma =
      some (-beta * S * I / N, beta * S * I / N - gamma * I, gamma * I) := by
  simp [SIR_derivatives, hN]

lemma SEIRDS_derivatives_eq (S E I R D t N beta gamma delta sigma : ℚ)
    (hN : N ≠ 0) :
    SEIRDS_derivatives (S, E, I, R, D) t N beta gamma delta sigma =
      some (-beta * S * I / N,
            beta * S * I / N - sigma * E,
            sigma * E - (gamma + delta) * I,
            gamma * I,
            delta * I) := by
  simp [SEIRDS_derivatives, hN]

/-- Claim C1: for every state `(S, I, R)`, every time `t`, every `N > 0`
and all parameters `beta`, `gamma`, `SIR_derivatives` returns exactly the
derivative triple
`(-beta*S*I/N, beta*S*I/N - gamma*I, gamma*I)`, as a pure function. -/
theorem C1_sir_derivatives_exact (S I R t N beta gamma : ℚ) (hN : 0 < N) :
    SIR_derivatives (S, I, R) t N beta gamma =
      some (-beta * S * I / N, beta * S * I / N - gamma * I, gamma * I) :=
  SIR_derivatives_eq S I R t N beta gamma (ne_of_gt hN)

theorem C1_sir_derivatives_exact_witness :
    SIR_derivatives (999, 1, 0) 0 1000 (1/5) (1/10) =
      some (-(1/5) * 999 * 1 / 1000,
            (1/5) * 999 * 1 / 1000 - (1/10) * 1,
            (1/10) * 1) :=
  C1_sir_derivatives_exact 999 1 0 0 1000 (1/5) (1/10) (by norm_num)

/-- Claim C2: for every state `(S, E, I, R, D)`, every time `t`, every
`N > 0` and all parameters, `SEIRDS_derivatives` returns exactly the tuple
`(-beta*S*I/N, beta*S*I/N - sigma*E, sigma*E - (gamma+delta)*I, gamma*I,
delta*I)`; in particular no term moves Recovered back to Susceptible, so
Recovered is absorbing. -/
theorem C2_seirds_derivatives_exact (S E I R D t N beta gamma delta sigma : ℚ)
    (hN : 0 < N) :
    SEIRDS_derivatives (S, E, I, R, D) t N beta gamma delta sigma =
      some (-beta * S * I / N,
            beta * S * I / N - sigma * E,
            sigma * E - (gamma + delta) * I,
            gamma * I,
            delta * I) :=
  SEIRDS_derivatives_eq S E I R D t N beta gamma delta sigma (ne_of_gt hN)

theorem C2_seirds_derivatives_exact_witness :
    SEIRDS_derivatives (99880, 0, 100, 20, 0) 0 100000 (6/25) (1/10) (1/200)
        (2/5) =
      some (-(6/25) * 99880 * 100 / 100000,
            (6/25) * 99880 * 100 / 100000 - (2/5) * 0,
            (2/5) * 0 - ((1/10) + (1/200)) * 100,
            (1/10) * 100,
            (1/200) * 100) :=
  C2_seirds_derivatives_exact 99880 0 100 20 0 0 100000 (6/25) (1/10) (1/200)
    (2/5) (by norm_num)

/-- Claim C3: for both variants, whenever the derivative function returns a
tuple (any state, any `t`, `N > 0`, any parameters), the components of that
tuple sum to exactly zero. -/
theorem C3_derivative_sums_zero
    (S I R t N beta gamma d1 d2 d3 : ℚ)
    (S5 E5 I5 R5 D5 t5 N5 beta5 gamma5 delta5 sigma5 e1 e2 e3 e4 e5 : ℚ)
    (hN : 0 < N) (hN5 : 0 < N5)
    (h3 : SIR_derivatives (S, I, R) t N beta gamma = some (d1, d2, d3))
    (h5 : SEIRDS_derivatives (S5, E5, I5, R5, D5) t5 N5 beta5 gamma5 delta5
      sigma5 = some (e1, e2, e3, e4, e5)) :
    d1 + d2 + d3 = 0 ∧ e1 + e2 + e3 + e4 + e5 = 0 := by
  rw [SIR_derivatives_eq S I R t N beta gamma (ne_of_gt hN)] at h3
  rw [SEIRDS_derivatives_eq S5 E5 I5 R5 D5 t5 N5 beta5 gamma5 delta5 sigma5
    (ne_of_gt hN5)] at h5
  simp only [Option.some.injEq, Prod.mk.injEq] at h3 h5
  obtain ⟨h31, h32, h33⟩ := h3
  obtain ⟨h51, h52, h53, h54, h55⟩ := h5
  subst h31 h32 h33 h51 h52 h53 h54 h55
  constructor <;> ring

theorem C3_derivative_sums_zero_witness :
    (-999/5000 : ℚ) + (999/5000 - 1/10) + 1/10 = 0 ∧
      (-14982/625 : ℚ) + 14982/625 + (-21/2) + 10 + 1/2 = 0 :=
  C3_derivative_sums_zero 999 1 0 0 1000 (1/5) (1/10) (-999/5000)
    (999/5000 - 1/10) (1/10) 99880 0 100 20 0 0 100000 (6/25) (1/10) (1/200)
    (2/5) (-14982/625) (14982/625) (-21/2) 10 (1/2) (by norm_num)
    (by norm_num) (by norm_num [SIR_derivatives])
    (by norm_num [SEIRDS_derivatives])

/-- Claim C5 counterexample: `SIR_model` does not derive the initial
Susceptible count.  Called with caller-supplied `S0 = 0` (and `N = 1000`,
`I0 = 1`, `R0 = 0`), the engine hands `(0, 1, 0)` to the solver, so row 0
holds `S = 0` and not the derived value `N - I0 - R0 = 999`. -/
theorem C5_counterexample :
    (SIR_model constSolver3 1000 0 1 0 (1/5) (1/10) [0, 1]).head? =
        some (0, 1, 0) ∧
      (0 : ℚ) ≠ 1000 - 1 - 0 := by
  exact ⟨rfl, by norm_num⟩

/-- Claim C5 (amended): `SEIRDS_model` derives
`S0 = N - I0 - E0 - R0 - D0` internally from the caller-supplied
non-Susceptible counts, but `SIR_model` takes `S0` as an explicit caller
argument and passes it to the solver unchanged (the script derives
`S0 = N - I0 - R0` at the call site, outside the engine). -/
theorem C5_amended_initial_state (solver3 : Solver3) (solver5 : Solver5)
    (N S0 I0 R0 beta gamma : ℚ) (ts : List ℚ)
    (N5 I5 E5 R5 D5 beta5 gamma5 delta5 sigma5 : ℚ) (ts5 : List ℚ)
    (h3 : OdeintShape3 solver3) (h5 : OdeintShape5 solver5)
    (hts : ts ≠ []) (hts5 : ts5 ≠ []) :
    (SIR_model solver3 N S0 I0 R0 beta gamma ts).head? = some (S0, I0, R0) ∧
      (SEIRDS_model solver5 N5 I5 E5 R5 D5 beta5 gamma5 delta5 sigma5
          ts5).head? =
        some (N5 - I5 - E5 - R5 - D5, E5, I5, R5, D5) := by
  obtain ⟨_, hh3⟩ := h3 (fun y t => SIR_derivatives y t N beta gamma)
    (S0, I0, R0) ts
  obtain ⟨_, hh5⟩ :=
    h5 (fun y t => SEIRDS_derivatives y t N5 beta5 gamma5 delta5 sigma5)
      (N5 - I5 - E5 - R5 - D5, E5, I5, R5, D5) ts5
  exact ⟨hh3 hts, hh5 hts5⟩

theorem C5_amended_initial_state_witness :
    (SIR_model constSolver3 1000 7 1 0 (1/5) (1/10) [0, 1]).head? =
        some (7, 1, 0) ∧
      (SEIRDS_model constSolver5 100000 100 0 20 0 (6/25) (1/10) (1/200)
          (2/5) [0, 1]).head? =
        some (100000 - 100 - 0 - 20 - 0, 0, 100, 20, 0) :=
  C5_amended_initial_state constSolver3 constSolver5 1000 7 1 0 (1/5) (1/10)
    [0, 1] 100000 100 0 20 0 (6/25) (1/10) (1/200) (2/5) [0, 1]
    constSolver3_shape constSolver5_shape (by simp) (by simp)

/-- Claim C6: for a valid run (the SIR caller supplies the derived
`S0 = N - I0 - R0`; the SEIRDS engine derives its own `S0`) and a solver
meeting the odeint shape contract, the result table has exactly one row per
time-grid point and row 0 equals the derived initial compartment state
exactly, in compartment order `(S, I, R)` resp. `(S, E, I, R, D)`. -/
theorem C6_result_table_shape (solver3 : Solver3) (solver5 : Solver5)
    (N S0 I0 R0 beta gamma : ℚ) (ts : List ℚ)
    (N5 I5 E5 R5 D5 beta5 gamma5 delta5 sigma5 : ℚ) (ts5 : List ℚ)
    (h3 : OdeintShape3 solver3) (h5 : OdeintShape5 solver5)
    (hts : ts ≠ []) (hts5 : ts5 ≠ []) (hS0 : S0 = N - I0 - R0) :
    (SIR_model solver3 N S0 I0 R0 beta gamma ts).length = ts.length ∧
      (SIR_model solver3 N S0 I0 R0 beta gamma ts).head? =
        some (N - I0 - R0, I0, R0) ∧
      (SEIRDS_model solver5 N5 I5 E5 R5 D5 beta5 gamma5 delta5 sigma5
          ts5).length = ts5.length ∧
      (SEIRDS_model solver5 N5 I5 E5 R5 D5 beta5 gamma5 delta5 sigma5
          ts5).head? =
        some (N5 - I5 - E5 - R5 - D5, E5, I5, R5, D5) := by
  subst hS0
  obtain ⟨hl3, hh3⟩ := h3 (fun y t => SIR_derivatives y t N beta gamma)
    (N - I0 - R0, I0, R0) ts
  obtain ⟨hl5, hh5⟩ :=
    h5 (fun y t => SEIRDS_derivatives y t N5 beta5 gamma5 delta5 sigma5)
      (N5 - I5 - E5 - R5 - D5, E5, I5, R5, D5) ts5
  exact ⟨hl3, hh3 hts, hl5, hh5 hts5⟩

theorem C6_result_table_shape_witness :
    (SIR_model constSolver3 1000 999 1 0 (1/5) (1/10) [0, 1]).length =
        ([0, 1] : List ℚ).length ∧
      (SIR_model constSolver3 1000 999 1 0 (1/5) (1/10) [0, 1]).head? =
        some (1000 - 1 - 0, 1, 0) ∧
      (SEIRDS_model constSolver5 100000 100 0 20 0 (6/25) (1/10) (1/200)
          (2/5) [0, 1]).length = ([0, 1] : List ℚ).length ∧
      (SEIRDS_model constSolver5 100000 100 0 20 0 (6/25) (1/10) (1/200)
          (2/5) [0, 1]).head? =
        some (100000 - 100 - 0 - 20 - 0, 0, 100, 20, 0) :=
  C6_result_table_shape constSolver3 constSolver5 1000 999 1 0 (1/5) (1/10)
    [0, 1] 100000 100 0 20 0 (6/25) (1/10) (1/200) (2/5) [0, 1]
    constSolver3_shape constSolver5_shape (by simp) (by simp) (by norm_num)

/-- Claim C7 counterexample: the engine performs no validation and fails
fast on nothing.  `SIR_model` called with non-positive `N = 0` and the
non-monotonic time grid `[1, 0]`, and `SEIRDS_model` called with negative
`N = -1`, a negative parameter `beta = -1/5` and a one-point time grid,
both return a full result table instead of failing with a validation error
before integration. -/
theorem C7_counterexample :
    SIR_model constSolver3 0 999 1 0 (1/5) (1/10) [1, 0] =
        [(999, 1, 0), (999, 1, 0)] ∧
      SEIRDS_model constSolver5 (-1) 1 0 0 0 (-1/5) (1/10) (1/200) (2/5)
          [0] =
        [(-1 - 1 - 0 - 0 - 0, 0, 1, 0, 0)] :=
  ⟨rfl, rfl⟩

/-- Claim C7 (amended): neither model function validates its inputs.  Each
passes its arguments directly to the ODE solver and returns the solver's
result unchanged, for every input, malformed or not — no validation error
is ever raised before integration. -/
theorem C7_amended_no_validation (solver3 : Solver3) (solver5 : Solver5)
    (N S0 I0 R0 beta gamma : ℚ) (ts : List ℚ)
    (N5 I5 E5 R5 D5 beta5 gamma5 delta5 sigma5 : ℚ) (ts5 : List ℚ) :
    SIR_model solver3 N S0 I0 R0 beta gamma ts =
        solver3 (fun y t => SIR_derivatives y t N beta gamma)
          (S0, I0, R0) ts ∧
      SEIRDS_model solver5 N5 I5 E5 R5 D5 beta5 gamma5 delta5 sigma5 ts5 =
        solver5
          (fun y t => SEIRDS_derivatives y t N5 beta5 gamma5 delta5 sigma5)
          (N5 - I5 - E5 - R5 - D5, E5, I5, R5, D5) ts5 :=
  ⟨rfl, rfl⟩

/-- Claim C8: with `I = 0` (and `E = 0` for SEIRDS), any `t`, any `N > 0`
and any parameters, both derivative functions return all-zero derivatives;
consequently a run from a disease-free initial condition (for a solver that
keeps equilibria constant, as an exact integrator does) yields a result
table in which every row equals the initial state. -/
theorem C8_disease_free (solver3 : Solver3) (solver5 : Solver5)
    (S0 R0 t N beta gamma : ℚ) (ts : List ℚ)
    (S5 R5 D5 t5 N5 beta5 gamma5 delta5 sigma5 : ℚ) (ts5 : List ℚ)
    (hN : 0 < N) (hN5 : 0 < N5)
    (hc3 : EquilibriumConstancy3 solver3)
    (hc5 : EquilibriumConstancy5 solver5) :
    SIR_derivatives (S0, 0, R0) t N beta gamma = some (0, 0, 0) ∧
      SEIRDS_derivatives (S5, 0, 0, R5, D5) t5 N5 beta5 gamma5 delta5
        sigma5 = some (0, 0, 0, 0, 0) ∧
      SIR_model solver3 N S0 0 R0 beta gamma ts =
        ts.map (fun _ => (S0, 0, R0)) ∧
      SEIRDS_model solver5 N5 0 0 R5 D5 beta5 gamma5 delta5 sigma5 ts5 =
        ts5.map (fun _ => (N5 - 0 - 0 - R5 - D5, 0, 0, R5, D5)) := by
  have hN0 : N ≠ 0 := ne_of_gt hN
  have hN50 : N5 ≠ 0 := ne_of_gt hN5
  have key3 : ∀ t2, SIR_derivatives (S0, 0, R0) t2 N beta gamma =
      some (0, 0, 0) := by
    intro t2
    rw [SIR_derivatives_eq S0 0 R0 t2 N beta gamma hN0]
    norm_num
  have key5 : ∀ t2,
      SEIRDS_derivatives (N5 - 0 - 0 - R5 - D5, 0, 0, R5, D5) t2 N5 beta5
        gamma5 delta5 sigma5 = some (0, 0, 0, 0, 0) := by
    intro t2
    rw [SEIRDS_derivatives_eq (N5 - 0 - 0 - R5 - D5) 0 0 R5 D5 t2 N5 beta5
      gamma5 delta5 sigma5 hN50]
    norm_num
  have key5b : ∀ t2,
      SEIRDS_derivatives (S5, 0, 0, R5, D5) t2 N5 beta5 gamma5 delta5
        sigma5 = some (0, 0, 0, 0, 0) := by
    intro t2
    rw [SEIRDS_derivatives_eq S5 0 0 R5 D5 t2 N5 beta5 gamma5 delta5 sigma5
      hN50]
    norm_num
  refine ⟨key3 t, key5b t5, ?_, ?_⟩
  · exact hc3 (fun y t2 => SIR_derivatives y t2 N beta gamma) (S0, 0, R0) ts
      key3
  · exact hc5
      (fun y t2 => SEIRDS_derivatives y t2 N5 beta5 gamma5 delta5 sigma5)
      (N5 - 0 - 0 - R5 - D5, 0, 0, R5, D5) ts5 key5

theorem C8_disease_free_witness :
    SIR_derivatives (999, 0, 1) 0 1000 (1/5) (1/10) = some (0, 0, 0) ∧
      SEIRDS_derivatives (999, 0, 0, 1, 2) 0 1000 (1/5) (1/10) (1/200)
          (2/5) = some (0, 0, 0, 0, 0) ∧
      SIR_model constSolver3 1000 999 0 1 (1/5) (1/10) [0, 1] =
        ([0, 1] : List ℚ).map (fun _ => (999, 0, 1)) ∧
      SEIRDS_model constSolver5 1000 0 0 1 2 (1/5) (1/10) (1/200) (2/5)
          [0, 1] =
        ([0, 1] : List ℚ).map (fun _ => (1000 - 0 - 0 - 1 - 2, 0, 0, 1, 2)) :=
  C8_disease_free constSolver3 constSolver5 999 1 0 1000 (1/5) (1/10) [0, 1]
    999 1 2 0 1000 (1/5) (1/10) (1/200) (2/5) [0, 1] (by norm_num)
    (by norm_num) constSolver3_equilibrium constSolver5_equilibrium

/-- Claim C9: both derivative functions are total over the documented
domain — for `N > 0` they return a value (never an error) for any state,
time and parameters; for `N = 0` the division raises, modelled as `none`
(no value is returned). -/
theorem C9_rate_model_totality (y3 : State3) (y5 : State5)
    (t N beta gamma : ℚ) (t5 N5 beta5 gamma5 delta5 sigma5 : ℚ)
    (hN : 0 < N) (hN5 : 0 < N5) :
    (SIR_derivatives y3 t N beta gamma).isSome = true ∧
      (SEIRDS_derivatives y5 t5 N5 beta5 gamma5 delta5 sigma5).isSome =
        true ∧
      SIR_derivatives y3 t 0 beta gamma = none ∧
      SEIRDS_derivatives y5 t5 0 beta5 gamma5 delta5 sigma5 = none := by
  obtain ⟨S, I, R⟩ := y3
  obtain ⟨S5, E5, I5, R5, D5⟩ := y5
  have hN0 : N ≠ 0 := ne_of_gt hN
  have hN50 : N5 ≠ 0 := ne_of_gt hN5
  refine ⟨?_, ?_, ?_, ?_⟩ <;>
    simp [SIR_derivatives, SEIRDS_derivatives, hN0, hN50]

theorem C9_rate_model_totality_witness :
    (SIR_derivatives (999, 1, 0) 0 1000 (1/5) (1/10)).isSome = true ∧
      (SEIRDS_derivatives (99880, 0, 100, 20, 0) 0 100000 (6/25) (1/10)
          (1/200) (2/5)).isSome = true ∧
      SIR_derivatives (999, 1, 0) 0 0 (1/5) (1/10) = none ∧
      SEIRDS_derivatives (99880, 0, 100, 20, 0) 0 0 (6/25) (1/10) (1/200)
          (2/5) = none :=
  C9_rate_model_totality (999, 1, 0) (99880, 0, 100, 20, 0) 0 1000 (1/5)
    (1/10) 0 100000 (6/25) (1/10) (1/200) (2/5) (by norm_num) (by norm_num)

/-- Claim C10: the outputs of both derivative functions are independent of
the time argument and of the absorbing compartments — changing `t` or `R`
(SIR), or `t`, `R` or `D` (SEIRDS), while keeping the remaining inputs
fixed, leaves the result unchanged. -/
theorem C10_derivatives_ignore_time_and_absorbing
    (S I R R2 t t2 N beta gamma : ℚ)
    (S5 E5 I5 R5 R6 D5 D6 t5 t6 N5 beta5 gamma5 delta5 sigma5 : ℚ) :
    SIR_derivatives (S, I, R) t N beta gamma =
        SIR_derivatives (S, I, R2) t2 N beta gamma ∧
      SEIRDS_derivatives (S5, E5, I5, R5, D5) t5 N5 beta5 gamma5 delta5
          sigma5 =
        SEIRDS_derivatives (S5, E5, I5, R6, D6) t6 N5 beta5 gamma5 delta5
          sigma5 :=
  ⟨rfl, rfl⟩

end EpiModels
